import Mathlib

/-!
Shallow embedding of `src/yjos_extractor.py` (class `YJOSDataExtractor`):
the extraction and analysis engine for YJOS field spreadsheets.

Modelling conventions:
* Python floats are embedded as exact rationals (`ℚ`); Python `round(x, n)`
  is round-half-to-even on the exact value.
* `numpy.random` draws are modelled by an explicit stream of rationals
  (`Rand := ℕ → ℚ`), one indexed draw per call site and loop iteration;
  `randint`/`uniform`/`choice` map a raw draw into the requested range, so
  every in-range value is realised by some stream.
* A workbook is a readable flag plus named sheets; a sheet is a grid of
  optionally-empty cells (`none` = pandas NaN).  `pd.read_excel` failures
  (unreadable file, missing sheet) are `Except.error`.
* Dates are day counts converted to proleptic-Gregorian civil dates with
  the standard days-from-civil / civil-from-days algorithms.
-/

namespace YJOS

/-- Round half to even on an exact rational, modelling Python `round`. -/
def roundHalfEven (q : ℚ) : ℤ :=
  let f := ⌊q⌋
  let r := q - (f : ℚ)
  if r < 1/2 then f
  else if (1/2 : ℚ) < r then f + 1
  else if f % 2 = 0 then f else f + 1

/-- Python `round(q, n)`: round to `n` decimal places, half to even. -/
def roundTo (n : ℕ) (q : ℚ) : ℚ := (roundHalfEven (q * (10 ^ n : ℕ)) : ℚ) / (10 ^ n : ℕ)

/-- A randomness source: one rational draw per indexed call site. -/
abbrev Rand := ℕ → ℚ

/-- Models `np.random.randint(lo, hi)` applied to raw draw `x`: a value in `[lo, hi)`. -/
def randint (lo hi : ℤ) (x : ℚ) : ℤ := lo + ((Int.toNat ⌊x⌋ % Int.toNat (hi - lo) : ℕ) : ℤ)

/-- Fractional part of a rational, in `[0, 1)`. -/
def fracPart (x : ℚ) : ℚ := x - (⌊x⌋ : ℚ)

/-- Models `np.random.uniform(lo, hi)` applied to raw draw `x`: a value in `[lo, hi)`. -/
def uniform (lo hi : ℚ) (x : ℚ) : ℚ := lo + fracPart x * (hi - lo)

/-- Models `np.random.choice(xs, p=...)` applied to raw draw `x`: some element of `xs`
(the probability weights only affect frequencies, not the support). -/
def choice (xs : List ℚ) (d : ℚ) (x : ℚ) : ℚ := xs.getD (Int.toNat ⌊x⌋ % xs.length) d

/-- Days since 1970-01-01 of the civil date `y-m-d` (proleptic Gregorian). -/
def daysFromCivil (y : ℤ) (m d : ℕ) : ℤ :=
  let y2 := if m ≤ 2 then y - 1 else y
  let era := (if 0 ≤ y2 then y2 else y2 - 399) / 400
  let yoe := Int.toNat (y2 - era * 400)
  let mp := if 2 < m then m - 3 else m + 9
  let doy := (153 * mp + 2) / 5 + d - 1
  let doe := yoe * 365 + yoe / 4 - yoe / 100 + doy
  era * 146097 + (doe : ℤ) - 719468

/-- Civil date `(y, m, d)` of a day count since 1970-01-01 (proleptic Gregorian). -/
def civilFromDays (z : ℤ) : ℤ × ℕ × ℕ :=
  let z2 := z + 719468
  let era := (if 0 ≤ z2 then z2 else z2 - 146096) / 146097
  let doe := Int.toNat (z2 - era * 146097)
  let yoe := (doe - doe / 1460 + doe / 36524 - doe / 146096) / 365
  let doy := doe - (365 * yoe + yoe / 4 - yoe / 100)
  let mp := (5 * doy + 2) / 153
  let d := doy - (153 * mp + 2) / 5 + 1
  let m := if mp < 10 then mp + 3 else mp - 9
  (era * 400 + yoe + (if m ≤ 2 then 1 else 0), m, d)

/-- Zero-padded two-digit rendering of a month or day number. -/
def pad2 (n : ℕ) : String := if n < 10 then "0" ++ toString n else toString n

/-- Models `strftime(%Y-%m-%d)` on a civil date. -/
def formatCivil : ℤ × ℕ × ℕ → String
  | (y, m, d) => toString y ++ "-" ++ pad2 m ++ "-" ++ pad2 d

/-- A spreadsheet cell value: text or a number. -/
inductive CellVal where
  | str (s : String)
  | num (q : ℚ)
deriving DecidableEq

/-- One sheet: a grid of rows of optionally-empty cells (`none` = pandas NaN). -/
abbrev Sheet := List (List (Option CellVal))

/-- A workbook: a readable flag (`false` models a corrupt file pandas cannot open)
plus named sheets. -/
structure Workbook where
  readable : Bool
  sheets : List (String × Sheet)
deriving DecidableEq

/-- Models `pd.read_excel(uploaded_file, sheet_name=name, header=None)`:
raises (`Except.error`) when the workbook is unreadable or the sheet is absent. -/
def readExcel (wb : Workbook) (name : String) : Except Unit Sheet :=
  if wb.readable then
    match wb.sheets.find? (fun p => p.1 == name) with
    | some p => .ok p.2
    | none => .error ()
  else .error ()

/-- Number of columns of a dataframe (`len(df.columns)`): pandas pads all rows
to the widest one. -/
def ncols (s : Sheet) : ℕ := s.foldl (fun a r => max a r.length) 0

/-- Models `df.iloc[row, col]` under a bounds guard already checked by the caller:
the cell when present, `none` when NaN or the row is shorter than the frame. -/
def cellAt (s : Sheet) (r c : ℕ) : Option CellVal := ((s.getD r []).getD c none)

/-- Models Python `str()` of a cell value (numeric rendering is schematic; no
claim depends on the textual form of numbers). -/
def pyStr : CellVal → String
  | .str s => s
  | .num q => toString q

/-- Embeds `_find_cell_value_by_position` (yjos_extractor.py lines 234-243):
inside the frame and non-NaN gives `str(value)`, otherwise `None`. -/
def findCellValueByPosition (s : Sheet) (r c : ℕ) : Option String :=
  if r < s.length ∧ c < ncols s then
    match cellAt s r c with
    | some v => some (pyStr v)
    | none => none
  else none

/-- A Python scalar as it may occur in the job-info dict. -/
inductive PyScalar where
  | s (v : String)
  | i (n : ℤ)
  | f (q : ℚ)
  | none
deriving DecidableEq

/-- Python truthiness of a scalar. -/
def PyScalar.truthy : PyScalar → Bool
  | .s v => !(v == "")
  | .i n => !(n == 0)
  | .f q => !(q == 0)
  | .none => false

/-- Embeds the date-conversion step of `_clean_job_info` (lines 248-255): when the
start date is truthy and an int or float, the Excel serial day count is converted
by `pd.to_datetime(1900-01-01) + pd.Timedelta(days=value - 2)` and formatted
`%Y-%m-%d` (for a fractional day count the date part is the floor). -/
def cleanDateStarted (v : PyScalar) : PyScalar :=
  if v.truthy then
    match v with
    | .i n => .s (formatCivil (civilFromDays (daysFromCivil 1900 1 1 + (n - 2))))
    | .f q => .s (formatCivil (civilFromDays (daysFromCivil 1900 1 1 + ⌊q - 2⌋)))
    | w => w
  else v

/-- Python `value.strip()` applied to truthy strings only (lines 258-260). -/
def stripStr (v : String) : String := if v == "" then v else v.trim

/-- Strip of an optional string field. -/
def stripOpt : Option String → Option String
  | some v => some (stripStr v)
  | none => none

/-- Python `x or default` on an optional string: the default replaces `None`
and the empty (falsy) string. -/
def pyOr (o : Option String) (d : String) : String :=
  match o with
  | some v => if v == "" then d else v
  | none => d

/-- The job-summary record (the `job_info` dict of `extract_job_info_from_uploaded`). -/
structure JobInfo where
  customer_name : Option String
  ticket_number : Option String
  address : Option String
  city_state : Option String
  day_supervisor : Option String
  email : Option String
  date_started : Option String
  date_ended : Option String
  job_type : String
  well_number : String
  county : String
  duration_days : ℕ
deriving DecidableEq

/-- View of an optional string as a Python scalar. -/
def toScalar : Option String → PyScalar
  | some v => .s v
  | none => PyScalar.none

/-- Back from a Python scalar to an optional string (the cleaned date is always
a string or `None` on this path). -/
def ofScalar : PyScalar → Option String
  | .s v => some v
  | _ => none

/-- Embeds `_clean_job_info` (lines 245-262): date conversion, then strip of every
truthy string field. -/
def cleanJobInfo (j : JobInfo) : JobInfo :=
  { j with
    customer_name := stripOpt j.customer_name
    ticket_number := stripOpt j.ticket_number
    address := stripOpt j.address
    city_state := stripOpt j.city_state
    day_supervisor := stripOpt j.day_supervisor
    email := stripOpt j.email
    date_started := stripOpt (ofScalar (cleanDateStarted (toScalar j.date_started)))
    date_ended := stripOpt j.date_ended
    job_type := stripStr j.job_type
    well_number := stripStr j.well_number
    county := stripStr j.county }

/-- The demo job summary substituted when `General Info` cannot be read (lines 82-95). -/
def demoJobSummary : JobInfo :=
  { customer_name := some "Mughees Khan"
    ticket_number := some "AE867384"
    address := some "Dubai Silicon Oasis"
    city_state := some "Dubai, UAE"
    day_supervisor := some "Saif Khan"
    email := some "mughees@bracketworks.io"
    date_started := some "2025-06-11"
    date_ended := some "2025-06-18"
    job_type := "Drillout Operation"
    well_number := "Well #DSO-1"
    county := "Dubai"
    duration_days := 7 }

/-- Embeds `extract_job_info_from_uploaded` (lines 52-96): positional lookups in
`General Info` plus `_clean_job_info`; any read failure yields the demo summary.
`_calculate_duration` (lines 264-270) always returns 7. -/
def extractJobInfo (wb : Workbook) : JobInfo :=
  match readExcel wb "General Info" with
  | .error _ => demoJobSummary
  | .ok df =>
    cleanJobInfo
      { customer_name := findCellValueByPosition df 11 2
        ticket_number := findCellValueByPosition df 11 4
        address := findCellValueByPosition df 12 2
        city_state := findCellValueByPosition df 13 2
        day_supervisor := findCellValueByPosition df 12 4
        email := findCellValueByPosition df 14 4
        date_started := findCellValueByPosition df 18 4
        date_ended := findCellValueByPosition df 19 4
        job_type := "Drillout Operation"
        well_number := pyOr (findCellValueByPosition df 23 2) "Well #1"
        county := pyOr (findCellValueByPosition df 24 2) "Dubai"
        duration_days := 7 }

/-- One mill operation (extract_mill_data row dict).  The demo rows have no
`depth_difference` key, hence the `Option`. -/
structure MillOp where
  plug_number : ℤ
  tag_time : String
  tag_depth : ℚ
  drill_time_mins : ℚ
  actual_depth : ℚ
  depth_difference : Option ℚ
  success : Bool
deriving DecidableEq

/-- Python `int()` truncation toward zero on a rational. -/
def pyInt (q : ℚ) : ℤ := if 0 ≤ q then ⌊q⌋ else ⌈q⌉

/-- Demo mill data (`_get_demo_mill_data`, lines 438-443). -/
def demoMillData : List MillOp :=
  (List.range' 1 10).map fun i =>
    { plug_number := (i : ℤ)
      tag_time := toString (8 + i) ++ ":30"
      tag_depth := 5250 - (i : ℚ) * 50
      drill_time_mins := 35 + (i : ℚ) * 2
      actual_depth := 5253 - (i : ℚ) * 50
      depth_difference := none
      success := true }

/-- One row of the `extract_mill_data` loop (lines 108-129): `none` models the
`continue` taken when the row body raises — `df.iloc` out of range, or
arithmetic on a text cell. -/
def millRow (df : Sheet) (r : Rand) (rowIdx : ℕ) : Option MillOp :=
  if rowIdx < df.length ∧ 0 < ncols df then
    let plug : Option ℚ :=
      match cellAt df rowIdx 0 with
      | some (.str _) => Option.none
      | some (.num q) => some q
      | Option.none => some ((rowIdx : ℚ) - 14)
    match plug with
    | Option.none => Option.none
    | some p =>
      let base_depth : ℚ := 5250 - (p - 1) * 55
      let drill_time := randint 35 55 (r (2 * rowIdx))
      let minute := randint 0 59 (r (2 * rowIdx + 1))
      some
        { plug_number := pyInt p
          tag_time := toString (8 + (p - 1) * 2) ++ ":" ++ pad2 (Int.toNat minute)
          tag_depth := base_depth - 3
          drill_time_mins := (drill_time : ℚ)
          actual_depth := base_depth
          depth_difference := some 3
          success := decide (drill_time < 50) }
  else Option.none

/-- Embeds `extract_mill_data` (lines 98-138): rows 15-24 of sheet `Mill Data`;
read failure yields the demo mill data. -/
def extractMillData (wb : Workbook) (r : Rand) : List MillOp :=
  match readExcel wb "Mill Data" with
  | .error _ => demoMillData
  | .ok df => (List.range' 15 10).filterMap (millRow df r)

/-- One coiled-tubing operation (extract_ct_milling_data row dict). -/
structure CtOp where
  plug_number : ℤ
  tag_time : String
  set_depth : ℚ
  tag_depth : ℚ
  depth_difference : Option ℚ
  drill_time_mins : ℚ
deriving DecidableEq

/-- Demo CT data (`_get_demo_ct_data`, lines 445-450). -/
def demoCtData : List CtOp :=
  (List.range' 1 5).map fun i =>
    { plug_number := (i : ℤ)
      tag_time := toString (9 + i) ++ ":15"
      set_depth := 4800 - (i : ℚ) * 40
      tag_depth := 4798 - (i : ℚ) * 40
      depth_difference := none
      drill_time_mins := 30 + (i : ℚ) * (3/2) }

/-- One row of the `extract_ct_milling_data` loop (lines 149-168); `none` models
the `continue` on a raising row. -/
def ctRow (df : Sheet) (r : Rand) (rowIdx : ℕ) : Option CtOp :=
  if rowIdx < df.length ∧ 0 < ncols df then
    let plug : Option ℚ :=
      match cellAt df rowIdx 0 with
      | some (.str _) => Option.none
      | some (.num q) => some q
      | Option.none => some ((rowIdx : ℚ) - 9)
    match plug with
    | Option.none => Option.none
    | some p =>
      let base_depth : ℚ := 4800 - (p - 1) * 45
      let drill_time := randint 30 50 (r (2 * rowIdx))
      let minute := randint 0 59 (r (2 * rowIdx + 1))
      some
        { plug_number := pyInt p
          tag_time := toString (roundHalfEven (9 + (p - 1) * (3/2))) ++ ":" ++
            pad2 (Int.toNat minute)
          set_depth := base_depth
          tag_depth := base_depth - 2
          depth_difference := some 2
          drill_time_mins := (drill_time : ℚ) }
  else Option.none

/-- Embeds `extract_ct_milling_data` (lines 140-176): rows 10-19 of sheet
`" CT Milling"`; read failure yields the demo CT data. -/
def extractCtData (wb : Workbook) (r : Rand) : List CtOp :=
  match readExcel wb " CT Milling" with
  | .error _ => demoCtData
  | .ok df => (List.range' 10 10).filterMap (ctRow df r)

/-- One daily operation record (extract_service_plans row dict). -/
structure DailyRecord where
  day : ℕ
  date : String
  activities : ℤ
  work_hours : ℚ
  downtime : ℚ
  equipment : List String
  mill_operations : ℕ
  ct_operations : ℕ
deriving DecidableEq

/-- Embeds `extract_service_plans` (lines 178-205): for each readable sheet
SP1..SP10, one record whose numeric fields are random draws independent of the
cells of the sheet; an unreadable sheet is skipped (`continue`). -/
def extractServicePlans (wb : Workbook) (r : Rand) : List DailyRecord :=
  (List.range' 1 10).filterMap fun sp =>
    match readExcel wb ("SP" ++ toString sp) with
    | .error _ => Option.none
    | .ok _ =>
      some
        { day := sp
          date := "2025-06-" ++ toString (10 + sp)
          activities := randint 8 15 (r (3 * (sp - 1)))
          work_hours := uniform (17/2) 12 (r (3 * (sp - 1) + 1))
          downtime := uniform (1/2) 2 (r (3 * (sp - 1) + 2))
          equipment := ["FT" ++ toString sp, "FT" ++ toString (sp + 1)]
          mill_operations := if sp ≤ 5 then 2 else 1
          ct_operations := if 5 < sp then 1 else 0 }

/-- One equipment/tool record (extract_equipment_from_uploaded value dict). -/
structure EquipRecord where
  usage_count : ℤ
  success_rate : ℚ
  avg_deployment_time : ℚ
  tool_type : String
  maintenance_due : Bool
deriving DecidableEq

/-- Embeds `_get_tool_type` (lines 272-280). -/
def toolTypeOf (n : ℕ) : String :=
  match n with
  | 1 => "Overshot" | 2 => "Spear" | 3 => "Mill" | 4 => "Magnet" | 5 => "Junk Basket"
  | 6 => "Washover" | 7 => "Taper Tap" | 8 => "Die Collar" | 9 => "Bumper Sub"
  | 10 => "Jar" | 11 => "Accelerator" | 12 => "Hydraulic Jar" | 13 => "Safety Joint"
  | 14 => "Crossover" | 15 => "Bullnose"
  | _ => "Tool " ++ toString n

/-- Embeds `extract_equipment_from_uploaded` (lines 207-232): for each readable
sheet FT1..FT15 one keyed record; `success_rate` is drawn from the support
{100, 85, 75} and `maintenance_due` is exactly `success_rate < 90` (line 225). -/
def extractEquipment (wb : Workbook) (r : Rand) : List (String × EquipRecord) :=
  (List.range' 1 15).filterMap fun t =>
    match readExcel wb ("FT" ++ toString t) with
    | .error _ => Option.none
    | .ok _ =>
      let rate := choice [100, 100, 100, 85, 75] 100 (r (3 * (t - 1) + 1))
      some ("FT" ++ toString t,
        { usage_count := randint 1 4 (r (3 * (t - 1)))
          success_rate := rate
          avg_deployment_time := uniform (3/2) (9/2) (r (3 * (t - 1) + 2))
          tool_type := toolTypeOf t
          maintenance_due := decide (rate < 90) })

/-- Python `max(xs, key=f)`: the first element attaining the maximal key, since
`max` only replaces its candidate on a strictly greater key. -/
def pyMaxBy {α : Type} (f : α → ℤ) : List α → Option α
  | [] => Option.none
  | x :: xs => some (xs.foldl (fun acc y => if f acc < f y then y else acc) x)

/-- Mill-performance aggregate (`_analyze_mill_performance` result dict). -/
structure MillPerf where
  total_plugs_drilled : ℕ
  avg_drill_time_mins : ℚ
  success_rate : ℚ
  total_footage : ℕ
  efficiency_rating : String
deriving DecidableEq

/-- Embeds `_analyze_mill_performance` (lines 299-314); `none` is the empty dict
returned for no mill data.  The efficiency rating compares the unrounded mean
(line 313), while the stored average is rounded to 1 decimal. -/
def analyzeMillPerformance (mill : List MillOp) : Option MillPerf :=
  match mill with
  | [] => Option.none
  | _ =>
    let total := mill.length
    let avg := (mill.map (·.drill_time_mins)).sum / total
    some
      { total_plugs_drilled := total
        avg_drill_time_mins := roundTo 1 avg
        success_rate := roundTo 1 (((mill.filter (·.success)).length : ℚ) / total * 100)
        total_footage := 3 * total
        efficiency_rating := if avg < 45 then "High" else "Medium" }

/-- CT-performance aggregate (`_analyze_ct_performance` result dict). -/
structure CtPerf where
  total_ct_operations : ℕ
  avg_ct_drill_time : ℚ
  depth_accuracy : ℚ
  efficiency_rating : String
deriving DecidableEq

/-- Embeds `_analyze_ct_performance` (lines 316-329); `none` is the empty dict
for no CT data. -/
def analyzeCtPerformance (ct : List CtOp) : Option CtPerf :=
  match ct with
  | [] => Option.none
  | _ =>
    let avg := (ct.map (·.drill_time_mins)).sum / ct.length
    some
      { total_ct_operations := ct.length
        avg_ct_drill_time := roundTo 1 avg
        depth_accuracy := 191/2
        efficiency_rating := if avg < 40 then "Excellent" else "Good" }

/-- Operational-frequency aggregate (`_analyze_operational_frequency` result dict). -/
structure OpFreq where
  total_operational_days : ℕ
  total_activities : ℤ
  avg_activities_per_day : ℚ
  total_work_hours : ℚ
  avg_hours_per_day : ℚ
  peak_activity_day : ℕ
  most_common_equipment : String
deriving DecidableEq

/-- Embeds `_analyze_operational_frequency` (lines 331-348); `none` is the empty
dict for no daily records.  `peak_activity_day` is Python
`max` with the activities key, defaulting to day 1 on empty input. -/
def analyzeOperationalFrequency (ds : List DailyRecord) : Option OpFreq :=
  match ds with
  | [] => Option.none
  | _ =>
    let total_days := ds.length
    let total_activities := (ds.map (·.activities)).sum
    let total_work_hours := (ds.map (·.work_hours)).sum
    some
      { total_operational_days := total_days
        total_activities := total_activities
        avg_activities_per_day :=
          if 0 < total_days then roundTo 1 ((total_activities : ℚ) / total_days) else 0
        total_work_hours := roundTo 2 total_work_hours
        avg_hours_per_day :=
          if 0 < total_days then roundTo 2 (total_work_hours / total_days) else 0
        peak_activity_day := ((pyMaxBy (·.activities) ds).map (·.day)).getD 1
        most_common_equipment := "drillout_tools" }

/-- Performance bucket of one tool (lines 360-366). -/
def perfRating (rate : ℚ) : String :=
  if 95 ≤ rate then "excellent" else if 85 ≤ rate then "good" else "poor"

/-- Equipment-frequency aggregate (`_analyze_equipment_frequency` result dict). -/
structure EquipFreq where
  total_tools_deployed : ℕ
  tools_with_issues : ℕ
  performance_distribution : List (String × ℕ)
  most_used_tool_type : String
  deployment_success_rate : ℚ
deriving DecidableEq

/-- Embeds `_analyze_equipment_frequency` (lines 350-374); `none` is the empty
dict for no equipment.  The Python set-comprehension iteration order is
unspecified, so the distribution is embedded in the canonical bucket order
excellent, good, poor, keeping only buckets that occur. -/
def analyzeEquipmentFrequency (eqp : List (String × EquipRecord)) : Option EquipFreq :=
  match eqp with
  | [] => Option.none
  | _ =>
    let tools_used := eqp.length
    let issues := (eqp.filter (fun t => decide (t.2.success_rate < 100))).length
    let ratings := eqp.map (fun t => perfRating t.2.success_rate)
    some
      { total_tools_deployed := tools_used
        tools_with_issues := issues
        performance_distribution :=
          (["excellent", "good", "poor"].filter (fun b => ratings.contains b)).map
            (fun b => (b, ratings.count b))
        most_used_tool_type := "Drillout Tools"
        deployment_success_rate :=
          if 0 < tools_used then
            roundTo 2 (((tools_used : ℚ) - issues) / tools_used * 100)
          else 0 }

/-- Time-pattern aggregate (`_analyze_time_patterns` result dict). -/
structure TimeAnalysis where
  avg_daily_hours : ℚ
  max_daily_hours : ℚ
  min_daily_hours : ℚ
  total_downtime : ℚ
  downtime_percentage : ℚ
deriving DecidableEq

/-- Embeds `_analyze_time_patterns` (lines 376-390); `none` is the empty dict for
no daily records.  Average, max and min range over days with positive work
hours; the downtime percentage divides by the sum of those hours, guarded. -/
def analyzeTimePatterns (ds : List DailyRecord) : Option TimeAnalysis :=
  match ds with
  | [] => Option.none
  | _ =>
    let work_hours := (ds.map (·.work_hours)).filter (fun h => decide (0 < h))
    let downtime := (ds.map (·.downtime)).sum
    some
      { avg_daily_hours :=
          if work_hours.isEmpty then 0 else roundTo 2 (work_hours.sum / work_hours.length)
        max_daily_hours := ((work_hours.max?).map (roundTo 2)).getD 0
        min_daily_hours := ((work_hours.min?).map (roundTo 2)).getD 0
        total_downtime := roundTo 2 downtime
        downtime_percentage :=
          if 0 < work_hours.sum then roundTo 2 (downtime / work_hours.sum * 100) else 0 }

/-- Efficiency aggregate (`_calculate_efficiency_metrics` result dict). -/
structure EffMetrics where
  activities_per_hour : ℚ
  hours_per_day_avg : ℚ
  job_completion_rate : ℚ
  equipment_utilization : ℚ
  drilling_efficiency : ℚ
  safety_score : ℚ
deriving DecidableEq

/-- Embeds `_calculate_efficiency_metrics` (lines 392-409).  Unlike the other
metric functions it has no empty-input branch: it always returns a full record,
with the guarded ratios collapsing to 0.  The job summary is optional because
the duration lookup defaults to 0 when the job dict is empty;
the average-drill-time lookup defaults to 50 (not below 45) when
there is no mill data. -/
def calcEfficiencyMetrics (job : Option JobInfo) (ds : List DailyRecord)
    (eqp : List (String × EquipRecord)) (mill : List MillOp) : EffMetrics :=
  let job_duration := ((job.map (·.duration_days)).getD 0 : ℕ)
  let total_activities := (ds.map (·.activities)).sum
  let total_work_hours := (ds.map (·.work_hours)).sum
  let drilling_efficiency : ℚ :=
    match analyzeMillPerformance mill with
    | some m => if m.avg_drill_time_mins < 45 then 85 else 75
    | Option.none => 75
  { activities_per_hour :=
      if 0 < total_work_hours then roundTo 2 ((total_activities : ℚ) / total_work_hours)
      else 0
    hours_per_day_avg :=
      if 0 < job_duration then roundTo 2 (total_work_hours / job_duration) else 0
    job_completion_rate := 100
    equipment_utilization := roundTo 2 ((eqp.length : ℚ) / 15 * 100)
    drilling_efficiency := drilling_efficiency
    safety_score := 98 }

/-- Drill-time warning advisory (line 418). -/
def drillWarnMsg : String :=
  "⚠️ Average drill time exceeds 45 minutes - consider bit optimization or parameter adjustment"

/-- Drill-time positive advisory (line 420). -/
def drillGoodMsg : String :=
  "✅ Excellent drilling performance - maintain current operational parameters"

/-- Maintenance advisory for `n` flagged tools (line 426). -/
def maintMsg (n : ℕ) : String :=
  "🔧 " ++ toString n ++ " tools require maintenance review before next deployment"

/-- Efficiency-sharing advisory (line 431). -/
def shareMsg : String :=
  "🎯 High drilling efficiency achieved - consider sharing best practices with other crews"

/-- Always-present safety advisory (line 434). -/
def safetyMsg : String :=
  "🛡️ Maintain excellent safety record with continued JSA compliance and observation protocols"

/-- Number of tools flagged maintenance-due (line 424). -/
def maintCount (eqp : List (String × EquipRecord)) : ℕ :=
  (eqp.filter (fun t => t.2.maintenance_due)).length

/-- Embeds `_generate_recommendations` (lines 411-436), rules in source order:
drill-time advisory (warning when the rounded average exceeds 45, default 0 for
no mill data), maintenance advisory when equipment exists and flagged tools
exceed 0, efficiency-sharing advisory when drilling efficiency exceeds 80, and
the safety advisory always. -/
def generateRecommendations (job : Option JobInfo) (ds : List DailyRecord)
    (eqp : List (String × EquipRecord)) (mill : List MillOp) : List String :=
  let avgDrill : ℚ := ((analyzeMillPerformance mill).map (·.avg_drill_time_mins)).getD 0
  let recs1 := if 45 < avgDrill then [drillWarnMsg] else [drillGoodMsg]
  let recs2 := if eqp ≠ [] ∧ 0 < maintCount eqp then [maintMsg (maintCount eqp)] else []
  let recs3 :=
    if 80 < (calcEfficiencyMetrics job ds eqp mill).drilling_efficiency then [shareMsg]
    else []
  recs1 ++ recs2 ++ recs3 ++ [safetyMsg]

/-- A JSON-like Python value: the shape of the analysis dict handed to the
dashboard. -/
inductive Val where
  | str (s : String)
  | int (n : ℤ)
  | num (q : ℚ)
  | bool (b : Bool)
  | null
  | arr (xs : List Val)
  | obj (kvs : List (String × Val))

/-- Dictionary lookup on an object value. -/
def Val.lookup (k : String) : Val → Option Val
  | .obj kvs => (kvs.find? (fun p => p.1 == k)).map (·.2)
  | _ => Option.none

/-- Whether a value is Python `None`. -/
def Val.isNull : Val → Bool
  | .null => true
  | _ => false

/-- Whether a value is a dict (possibly empty). -/
def Val.isMapping : Val → Bool
  | .obj _ => true
  | _ => false

/-- An optional string as a Python value (`None` when absent). -/
def optStrVal : Option String → Val
  | some s => .str s
  | Option.none => .null

/-- The job summary as the dict handed to the dashboard. -/
def jobInfoVal (j : JobInfo) : Val :=
  .obj [("customer_name", optStrVal j.customer_name),
        ("ticket_number", optStrVal j.ticket_number),
        ("address", optStrVal j.address),
        ("city_state", optStrVal j.city_state),
        ("day_supervisor", optStrVal j.day_supervisor),
        ("email", optStrVal j.email),
        ("date_started", optStrVal j.date_started),
        ("date_ended", optStrVal j.date_ended),
        ("job_type", .str j.job_type),
        ("well_number", .str j.well_number),
        ("county", .str j.county),
        ("duration_days", .int j.duration_days)]

/-- A daily operation record as a dict. -/
def dailyVal (d : DailyRecord) : Val :=
  .obj [("day", .int d.day), ("date", .str d.date), ("activities", .int d.activities),
        ("work_hours", .num d.work_hours), ("downtime", .num d.downtime),
        ("equipment", .arr (d.equipment.map .str)),
        ("mill_operations", .int d.mill_operations),
        ("ct_operations", .int d.ct_operations)]

/-- An equipment record as a dict. -/
def equipVal (e : EquipRecord) : Val :=
  .obj [("usage_count", .int e.usage_count), ("success_rate", .num e.success_rate),
        ("avg_deployment_time", .num e.avg_deployment_time),
        ("tool_type", .str e.tool_type), ("maintenance_due", .bool e.maintenance_due)]

/-- The operational-frequency aggregate as a dict. -/
def opFreqVal (o : OpFreq) : Val :=
  .obj [("total_operational_days", .int o.total_operational_days),
        ("total_activities", .int o.total_activities),
        ("avg_activities_per_day", .num o.avg_activities_per_day),
        ("total_work_hours", .num o.total_work_hours),
        ("avg_hours_per_day", .num o.avg_hours_per_day),
        ("peak_activity_day", .int o.peak_activity_day),
        ("most_common_equipment", .str o.most_common_equipment)]

/-- The equipment-frequency aggregate as a dict. -/
def equipFreqVal (e : EquipFreq) : Val :=
  .obj [("total_tools_deployed", .int e.total_tools_deployed),
        ("tools_with_issues", .int e.tools_with_issues),
        ("performance_distribution",
          .obj (e.performance_distribution.map fun p => (p.1, .int p.2))),
        ("most_used_tool_type", .str e.most_used_tool_type),
        ("deployment_success_rate", .num e.deployment_success_rate)]

/-- The time-pattern aggregate as a dict. -/
def timeVal (t : TimeAnalysis) : Val :=
  .obj [("avg_daily_hours", .num t.avg_daily_hours),
        ("max_daily_hours", .num t.max_daily_hours),
        ("min_daily_hours", .num t.min_daily_hours),
        ("total_downtime", .num t.total_downtime),
        ("downtime_percentage", .num t.downtime_percentage)]

/-- The efficiency aggregate as a dict. -/
def effVal (e : EffMetrics) : Val :=
  .obj [("activities_per_hour", .num e.activities_per_hour),
        ("hours_per_day_avg", .num e.hours_per_day_avg),
        ("job_completion_rate", .num e.job_completion_rate),
        ("equipment_utilization", .num e.equipment_utilization),
        ("drilling_efficiency", .num e.drilling_efficiency),
        ("safety_score", .num e.safety_score)]

/-- The mill-performance aggregate as a dict. -/
def millPerfVal (m : MillPerf) : Val :=
  .obj [("total_plugs_drilled", .int m.total_plugs_drilled),
        ("avg_drill_time_mins", .num m.avg_drill_time_mins),
        ("success_rate", .num m.success_rate),
        ("total_footage", .int m.total_footage),
        ("efficiency_rating", .str m.efficiency_rating)]

/-- The CT-performance aggregate as a dict. -/
def ctPerfVal (c : CtPerf) : Val :=
  .obj [("total_ct_operations", .int c.total_ct_operations),
        ("avg_ct_drill_time", .num c.avg_ct_drill_time),
        ("depth_accuracy", .num c.depth_accuracy),
        ("efficiency_rating", .str c.efficiency_rating)]

/-- Embeds `generate_frequency_analysis` (lines 282-297): the ten-key analysis
dict assembled from the extractor state; every `None`-like metric option
serialises as the empty dict the Python functions return. -/
def genFreqAnalysis (job : Option JobInfo) (mill : List MillOp) (ct : List CtOp)
    (ds : List DailyRecord) (eqp : List (String × EquipRecord)) : Val :=
  .obj [("job_summary", ((job.map jobInfoVal).getD (.obj []))),
        ("operational_frequency",
          ((analyzeOperationalFrequency ds).map opFreqVal).getD (.obj [])),
        ("equipment_frequency",
          ((analyzeEquipmentFrequency eqp).map equipFreqVal).getD (.obj [])),
        ("time_analysis", ((analyzeTimePatterns ds).map timeVal).getD (.obj [])),
        ("efficiency_metrics", effVal (calcEfficiencyMetrics job ds eqp mill)),
        ("daily_breakdown", .arr (ds.map dailyVal)),
        ("equipment_usage", .obj (eqp.map fun p => (p.1, equipVal p.2))),
        ("mill_performance", ((analyzeMillPerformance mill).map millPerfVal).getD (.obj [])),
        ("ct_performance", ((analyzeCtPerformance ct).map ctPerfVal).getD (.obj [])),
        ("recommendations", .arr ((generateRecommendations job ds eqp mill).map .str))]

/-- The demo daily breakdown (lines 516-524). -/
def demoDailyBreakdown : List DailyRecord :=
  [{ day := 1, date := "2025-06-11", activities := 10, work_hours := (9.5 : ℚ),
     downtime := (1.5 : ℚ), equipment := ["FT1", "FT2"], mill_operations := 2,
     ct_operations := 0 },
   { day := 2, date := "2025-06-12", activities := 13, work_hours := (11.0 : ℚ),
     downtime := (1.0 : ℚ), equipment := ["FT2", "FT3", "FT4"], mill_operations := 2,
     ct_operations := 0 },
   { day := 3, date := "2025-06-13", activities := 15, work_hours := (12.5 : ℚ),
     downtime := (0.5 : ℚ), equipment := ["FT3", "FT5", "FT6"], mill_operations := 2,
     ct_operations := 0 },
   { day := 4, date := "2025-06-14", activities := 12, work_hours := (10.5 : ℚ),
     downtime := (1.5 : ℚ), equipment := ["FT4", "FT7"], mill_operations := 2,
     ct_operations := 1 },
   { day := 5, date := "2025-06-15", activities := 11, work_hours := (9.0 : ℚ),
     downtime := (2.0 : ℚ), equipment := ["FT5", "FT8"], mill_operations := 2,
     ct_operations := 1 },
   { day := 6, date := "2025-06-16", activities := 9, work_hours := (8.5 : ℚ),
     downtime := (1.2 : ℚ), equipment := ["FT6", "FT9"], mill_operations := 0,
     ct_operations := 1 },
   { day := 7, date := "2025-06-17", activities := 8, work_hours := (7.5 : ℚ),
     downtime := (1.5 : ℚ), equipment := ["FT7", "FT10"], mill_operations := 0,
     ct_operations := 2 }]

/-- The demo equipment usage (lines 525-538). -/
def demoEquipmentUsage : List (String × EquipRecord) :=
  [("FT1", { usage_count := 1, success_rate := 100, avg_deployment_time := (2.5 : ℚ),
             tool_type := "Overshot", maintenance_due := false }),
   ("FT2", { usage_count := 2, success_rate := 100, avg_deployment_time := (3.2 : ℚ),
             tool_type := "Spear", maintenance_due := false }),
   ("FT3", { usage_count := 2, success_rate := 85, avg_deployment_time := (4.1 : ℚ),
             tool_type := "Mill", maintenance_due := true }),
   ("FT4", { usage_count := 2, success_rate := 100, avg_deployment_time := (2.8 : ℚ),
             tool_type := "Magnet", maintenance_due := false }),
   ("FT5", { usage_count := 2, success_rate := 100, avg_deployment_time := (3.5 : ℚ),
             tool_type := "Junk Basket", maintenance_due := false }),
   ("FT6", { usage_count := 2, success_rate := 75, avg_deployment_time := (4.8 : ℚ),
             tool_type := "Washover", maintenance_due := true }),
   ("FT7", { usage_count := 2, success_rate := 100, avg_deployment_time := (2.2 : ℚ),
             tool_type := "Taper Tap", maintenance_due := false }),
   ("FT8", { usage_count := 1, success_rate := 100, avg_deployment_time := (3.0 : ℚ),
             tool_type := "Die Collar", maintenance_due := false }),
   ("FT9", { usage_count := 1, success_rate := 100, avg_deployment_time := (2.7 : ℚ),
             tool_type := "Bumper Sub", maintenance_due := false }),
   ("FT10", { usage_count := 1, success_rate := 100, avg_deployment_time := (2.1 : ℚ),
              tool_type := "Jar", maintenance_due := false }),
   ("FT11", { usage_count := 1, success_rate := 100, avg_deployment_time := (3.3 : ℚ),
              tool_type := "Accelerator", maintenance_due := false }),
   ("FT12", { usage_count := 1, success_rate := 100, avg_deployment_time := (2.9 : ℚ),
              tool_type := "Hydraulic Jar", maintenance_due := false })]

/-- The demo recommendations (lines 539-545). -/
def demoRecommendations : List String :=
  ["✅ Excellent drilling performance with 42.3 min average - maintain current operational parameters",
   "🔧 2 tools (FT3, FT6) require maintenance review before next deployment",
   "🎯 High drilling efficiency achieved (88%) - consider sharing best practices with other crews",
   "💡 CT operations showing excellent efficiency (36.8 min avg) - optimize for future jobs",
   "🛡️ Maintain excellent safety record with continued JSA compliance and observation protocols"]

/-- The canned demo dataset (`get_demo_data`, lines 452-546), transcribed field
by field. -/
def demoDataVal : Val :=
  .obj [("job_summary", jobInfoVal demoJobSummary),
        ("operational_frequency", .obj
          [("total_operational_days", .int 7), ("total_activities", .int 78),
           ("avg_activities_per_day", .num (11.1 : ℚ)),
           ("total_work_hours", .num (68.5 : ℚ)),
           ("avg_hours_per_day", .num (9.8 : ℚ)),
           ("peak_activity_day", .int 3),
           ("most_common_equipment", .str "drillout_tools")]),
        ("equipment_frequency", .obj
          [("total_tools_deployed", .int 12), ("tools_with_issues", .int 2),
           ("deployment_success_rate", .num (83.3 : ℚ)),
           ("performance_distribution", .obj
             [("excellent", .int 7), ("good", .int 3), ("poor", .int 2)])]),
        ("time_analysis", .obj
          [("avg_daily_hours", .num (9.8 : ℚ)), ("max_daily_hours", .num (12.5 : ℚ)),
           ("min_daily_hours", .num (7.0 : ℚ)), ("total_downtime", .num (9.2 : ℚ)),
           ("downtime_percentage", .num (13.4 : ℚ))]),
        ("efficiency_metrics", .obj
          [("activities_per_hour", .num (1.14 : ℚ)),
           ("hours_per_day_avg", .num (9.8 : ℚ)),
           ("job_completion_rate", .int 100),
           ("equipment_utilization", .num (80.0 : ℚ)),
           ("drilling_efficiency", .int 88), ("safety_score", .int 98)]),
        ("mill_performance", .obj
          [("total_plugs_drilled", .int 10),
           ("avg_drill_time_mins", .num (42.3 : ℚ)),
           ("success_rate", .num (100.0 : ℚ)), ("total_footage", .int 30),
           ("efficiency_rating", .str "High")]),
        ("ct_performance", .obj
          [("total_ct_operations", .int 5), ("avg_ct_drill_time", .num (36.8 : ℚ)),
           ("depth_accuracy", .num (95.5 : ℚ)),
           ("efficiency_rating", .str "Excellent")]),
        ("daily_breakdown", .arr (demoDailyBreakdown.map dailyVal)),
        ("equipment_usage", .obj (demoEquipmentUsage.map fun p => (p.1, equipVal p.2))),
        ("recommendations", .arr (demoRecommendations.map .str))]

/-- The four independent randomness sources handed to the four synthesising
extractors (the single numpy global stream, split per extractor). -/
structure Rngs where
  mill : Rand
  ct : Rand
  sp : Rand
  ft : Rand

/-- An unhandled failure escaping to the `except` arm of `process_uploaded_file`. -/
abbrev PyErr := String

/-- The `try/except` of `process_uploaded_file` (lines 27-50): a failing body is
answered by the whole canned demo dataset; a successful body is returned as is. -/
def pyTryDemo (body : Except PyErr Val) : Val :=
  match body with
  | .ok v => v
  | .error _ => demoDataVal

/-- The `try` body of `process_uploaded_file` (lines 27-46): job info, mill, CT,
service-plan and equipment extraction, then `generate_frequency_analysis`.
Each extractor catches its own read failures, so the body built here always
succeeds; the `except` arm is the other constructor of its `Except` type. -/
def pipelineBody (wb : Workbook) (r : Rngs) : Except PyErr Val :=
  let job := extractJobInfo wb
  let mill := extractMillData wb r.mill
  let ct := extractCtData wb r.ct
  let ds := extractServicePlans wb r.sp
  let eqp := extractEquipment wb r.ft
  .ok (genFreqAnalysis (some job) mill ct ds eqp)

/-- Embeds `process_uploaded_file` (lines 25-50). -/
def processUploadedFile (wb : Workbook) (r : Rngs) : Val :=
  pyTryDemo (pipelineBody wb r)

end YJOS


namespace YJOS

/-! Concrete fixtures used by several theorems below. -/

/-- The example daily records of the operational-frequency test property in the spec:
activities [10,13,15,12,11,9,8], work hours [9.5,11.0,12.5,10.5,9.0,8.5,7.5]. -/
def exampleDailyRecords : List DailyRecord :=
  [{ day := 1, date := "2025-06-11", activities := 10, work_hours := (19/2 : ℚ),
     downtime := 1, equipment := [], mill_operations := 0, ct_operations := 0 },
   { day := 2, date := "2025-06-12", activities := 13, work_hours := 11,
     downtime := 1, equipment := [], mill_operations := 0, ct_operations := 0 },
   { day := 3, date := "2025-06-13", activities := 15, work_hours := (25/2 : ℚ),
     downtime := 1, equipment := [], mill_operations := 0, ct_operations := 0 },
   { day := 4, date := "2025-06-14", activities := 12, work_hours := (21/2 : ℚ),
     downtime := 1, equipment := [], mill_operations := 0, ct_operations := 0 },
   { day := 5, date := "2025-06-15", activities := 11, work_hours := 9,
     downtime := 1, equipment := [], mill_operations := 0, ct_operations := 0 },
   { day := 6, date := "2025-06-16", activities := 9, work_hours := (17/2 : ℚ),
     downtime := 1, equipment := [], mill_operations := 0, ct_operations := 0 },
   { day := 7, date := "2025-06-17", activities := 8, work_hours := (15/2 : ℚ),
     downtime := 1, equipment := [], mill_operations := 0, ct_operations := 0 }]

/-- A readable workbook whose `SP1` sheet contains exactly the three time-of-day
substrings 8:30, 10:15, 14:20 and nothing else. -/
def spWorkbook : Workbook :=
  { readable := true,
    sheets := [("SP1", [[some (.str "8:30"), some (.str "10:15"), some (.str "14:20")]])] }

/-- A workbook with the same sheet names as `spWorkbook` but different cell
contents (a single empty cell). -/
def spWorkbookB : Workbook :=
  { readable := true, sheets := [("SP1", [[Option.none]])] }

/-- A readable workbook with a single (empty) `FT1` tool sheet. -/
def ftWorkbook : Workbook := { readable := true, sheets := [("FT1", [[]])] }

/-! Helper lemmas. -/

/-- A `randint` draw lies in `[lo, hi)` whenever the range is nonempty. -/
theorem randint_mem (lo hi : ℤ) (x : ℚ) (h : lo < hi) :
    lo ≤ randint lo hi x ∧ randint lo hi x < hi := by
  unfold randint
  have hpos : 0 < Int.toNat (hi - lo) := by omega
  have hmod : Int.toNat ⌊x⌋ % Int.toNat (hi - lo) < Int.toNat (hi - lo) :=
    Nat.mod_lt _ hpos
  omega

/-- The success-rate draw of the equipment extractor only produces 100, 85 or 75. -/
theorem choice_rate_support (x : ℚ) :
    choice [100, 100, 100, 85, 75] 100 x = 100 ∨ choice [100, 100, 100, 85, 75] 100 x = 85
      ∨ choice [100, 100, 100, 85, 75] 100 x = 75 := by
  unfold choice
  have hlen : [(100 : ℚ), 100, 100, 85, 75].length = 5 := rfl
  rw [hlen]
  have h5 : Int.toNat ⌊x⌋ % 5 = 0 ∨ Int.toNat ⌊x⌋ % 5 = 1 ∨ Int.toNat ⌊x⌋ % 5 = 2
      ∨ Int.toNat ⌊x⌋ % 5 = 3 ∨ Int.toNat ⌊x⌋ % 5 = 4 := by omega
  rcases h5 with h | h | h | h | h <;> rw [h] <;> norm_num [List.getD]

/-- Whether a sheet read succeeded. -/
def isOkB : Except Unit Sheet → Bool
  | .ok _ => true
  | .error _ => false


/-! Claim C9: the spreadsheet serial-date epoch. -/

/-- C9 counterexample: the code maps Excel serial day 1 to 1899-12-31, not to
1900-01-01 as the claim states. -/
theorem serial_day_one_is_18991231 :
    cleanDateStarted (.i 1) = .s "1899-12-31"
    ∧ cleanDateStarted (.i 1) ≠ .s "1900-01-01" := by
  exact ⟨rfl, by decide⟩

/-- C9 (amended): `_clean_job_info` converts a nonzero numeric serial day count
`d` to the calendar date 1899-12-30 + `d` days (floor of `d` for floats), so
serial day 1 maps to 1899-12-31 (not 1900-01-01) and serial day 61 maps to
1900-03-01, reproducing the 1900 leap-year quirk for serials above 60. -/
theorem cleanDate_uses_epoch_18991230 :
    (∀ n : ℤ, n ≠ 0 →
      cleanDateStarted (.i n)
        = .s (formatCivil (civilFromDays (daysFromCivil 1899 12 30 + n))))
    ∧ (∀ q : ℚ, q ≠ 0 →
      cleanDateStarted (.f q)
        = .s (formatCivil (civilFromDays (daysFromCivil 1899 12 30 + ⌊q⌋))))
    ∧ cleanDateStarted (.i 1) = .s "1899-12-31"
    ∧ cleanDateStarted (.i 61) = .s "1900-03-01" := by
  have key : daysFromCivil 1900 1 1 = daysFromCivil 1899 12 30 + 2 := by decide
  refine ⟨?_, ?_, rfl, rfl⟩
  · intro n hn
    have ht : (PyScalar.i n).truthy = true := by
      simp [PyScalar.truthy, hn]
    have harg : daysFromCivil 1900 1 1 + (n - 2) = daysFromCivil 1899 12 30 + n := by
      rw [key]; ring
    simp [cleanDateStarted, ht, harg]
  · intro q hq
    have ht : (PyScalar.f q).truthy = true := by
      simp [PyScalar.truthy, hq]
    have hfl : ⌊q - 2⌋ = ⌊q⌋ - 2 := by
      rw [show (2 : ℚ) = ((2 : ℤ) : ℚ) by norm_num, Int.floor_sub_int]
    have harg : daysFromCivil 1900 1 1 + (⌊q⌋ - 2) = daysFromCivil 1899 12 30 + ⌊q⌋ := by
      rw [key]; ring
    simp [cleanDateStarted, ht, hfl, harg]

/-- C9 witness: the amended statement evaluated at serial day 61. -/
theorem cleanDate_epoch_witness :
    (61 : ℤ) ≠ 0
    ∧ cleanDateStarted (.i 61)
        = .s (formatCivil (civilFromDays (daysFromCivil 1899 12 30 + 61))) :=
  ⟨by decide, cleanDate_uses_epoch_18991230.1 61 (by decide)⟩


/-! Claim C10: the maintenance-due flag. -/

/-- C10: every record produced by the equipment extractor has `maintenance_due`
set exactly when its success rate is strictly below 90 (the drawn rate being one
of 100, 85, 75); the demo equipment data satisfies the same invariant; hence the
count behind the maintenance advisory is exactly the number of tools with
success rate below 90. -/
theorem maintenance_due_iff_rate_below_90 :
    (∀ (wb : Workbook) (r : Rand) (p : String × EquipRecord),
      p ∈ extractEquipment wb r →
        ((p.2.maintenance_due = true ↔ p.2.success_rate < 90)
          ∧ (p.2.success_rate = 100 ∨ p.2.success_rate = 85 ∨ p.2.success_rate = 75)))
    ∧ (∀ p ∈ demoEquipmentUsage, p.2.maintenance_due = true ↔ p.2.success_rate < 90)
    ∧ (∀ (wb : Workbook) (r : Rand),
        maintCount (extractEquipment wb r)
          = ((extractEquipment wb r).filter
              (fun p => decide (p.2.success_rate < 90))).length) := by
  have hmain : ∀ (wb : Workbook) (r : Rand) (p : String × EquipRecord),
      p ∈ extractEquipment wb r →
        ((p.2.maintenance_due = true ↔ p.2.success_rate < 90)
          ∧ (p.2.success_rate = 100 ∨ p.2.success_rate = 85 ∨ p.2.success_rate = 75)) := by
    intro wb r p hp
    obtain ⟨t, ht, hft⟩ := List.mem_filterMap.mp hp
    rcases hre : readExcel wb ("FT" ++ toString t) with e | df
    · rw [hre] at hft
      simp at hft
    · rw [hre] at hft
      simp only [Option.some.injEq] at hft
      subst hft
      refine ⟨by simp, choice_rate_support _⟩
  refine ⟨hmain, by decide, ?_⟩
  intro wb r
  unfold maintCount
  refine congrArg List.length (List.filter_congr ?_)
  intro p hp
  rcases hmain wb r p hp with ⟨hiff, _⟩
  by_cases hc : p.2.success_rate < 90
  · simp [hiff.mpr hc, hc]
  · have hfalse : p.2.maintenance_due = false := by
      cases hb : p.2.maintenance_due
      · rfl
      · exact absurd (hiff.mp hb) hc
    simp [hfalse, hc]

/-- C10 witness: the invariant instantiated on the tool record extracted from a
workbook with a single FT1 sheet. -/
theorem maintenance_due_witness :
    ∃ p, p ∈ extractEquipment ftWorkbook (fun _ => 0)
      ∧ (p.2.maintenance_due = true ↔ p.2.success_rate < 90) := by
  obtain ⟨p, hp⟩ : ∃ p, extractEquipment ftWorkbook (fun _ => 0) = [p] := ⟨_, rfl⟩
  have hmem : p ∈ extractEquipment ftWorkbook (fun _ => 0) := by
    rw [hp]; exact List.mem_cons_self p []
  exact ⟨p, hmem, (maintenance_due_iff_rate_below_90.1 _ _ p hmem).1⟩


/-! Claim C3: activity counts in day sheets. -/

/-- C3 counterexample: a day sheet containing exactly the time substrings 8:30,
10:15 and 14:20 yields activity count 8 (a random draw), not 3 as the claim
states. -/
theorem sheet_with_three_times_yields_8 :
    ((extractServicePlans spWorkbook (fun _ => 0)).map (·.activities)) = [8]
    ∧ (8 : ℤ) ≠ 3 := ⟨rfl, by decide⟩

/-- C3 (amended): the activity count of an extracted daily record is a
synthesised random integer in the inclusive range [8, 14]
(`np.random.randint(8, 15)`) drawn independently of the cell contents —
the extractor never scans cells for time-of-day patterns and applies no
[1, 15] clamp. -/
theorem activities_synthesised_in_8_14 :
    (∀ (wb : Workbook) (r : Rand) (d : DailyRecord),
      d ∈ extractServicePlans wb r → 8 ≤ d.activities ∧ d.activities ≤ 14)
    ∧ (∀ (wb₁ wb₂ : Workbook) (r : Rand),
        (∀ sp ∈ List.range' 1 10,
          isOkB (readExcel wb₁ ("SP" ++ toString sp))
            = isOkB (readExcel wb₂ ("SP" ++ toString sp))) →
        extractServicePlans wb₁ r = extractServicePlans wb₂ r) := by
  constructor
  · intro wb r d hd
    obtain ⟨sp, hsp, hfd⟩ := List.mem_filterMap.mp hd
    rcases hre : readExcel wb ("SP" ++ toString sp) with e | df
    · rw [hre] at hfd
      simp at hfd
    · rw [hre] at hfd
      simp only [Option.some.injEq] at hfd
      subst hfd
      have hb := randint_mem 8 15 (r (3 * (sp - 1))) (by norm_num)
      refine ⟨hb.1, ?_⟩
      show randint 8 15 (r (3 * (sp - 1))) ≤ 14
      omega
  · intro wb₁ wb₂ r hsame
    unfold extractServicePlans
    refine List.filterMap_congr ?_
    intro sp hsp
    have h := hsame sp hsp
    rcases h1 : readExcel wb₁ ("SP" ++ toString sp) with e1 | df1 <;>
      rcases h2 : readExcel wb₂ ("SP" ++ toString sp) with e2 | df2 <;>
      rw [h1, h2] at h <;> simp [isOkB] at h

/-- C3 witness: the amended statement instantiated on the concrete workbook with
the three time substrings, and on a second workbook with the same sheets but
different cells. -/
theorem activities_synthesised_witness :
    (∃ d, d ∈ extractServicePlans spWorkbook (fun _ => 0)
      ∧ 8 ≤ d.activities ∧ d.activities ≤ 14)
    ∧ extractServicePlans spWorkbook (fun _ => 0)
        = extractServicePlans spWorkbookB (fun _ => 0) := by
  constructor
  · obtain ⟨d, hd⟩ : ∃ d, extractServicePlans spWorkbook (fun _ => 0) = [d] := ⟨_, rfl⟩
    have hmem : d ∈ extractServicePlans spWorkbook (fun _ => 0) := by
      rw [hd]; exact List.mem_cons_self d []
    exact ⟨d, hmem, activities_synthesised_in_8_14.1 _ _ d hmem⟩
  · exact activities_synthesised_in_8_14.2 _ _ _ (by decide)


/-! Claim C8: determinism of extraction. -/

/-- The fields of a daily record that are not random draws. -/
def DailyRecord.stablePart (d : DailyRecord) : ℕ × String × List String × ℕ × ℕ :=
  (d.day, d.date, d.equipment, d.mill_operations, d.ct_operations)

/-- C8 counterexample: two runs on the same well-formed workbook with different
random draws produce different daily-operation record sequences (activity count
8 in one run, 9 in the other), so extraction is not deterministic in the
workbook alone. -/
theorem two_runs_differ_on_same_workbook :
    ((extractServicePlans spWorkbook (fun _ => 0)).map (·.activities)) = [8]
    ∧ ((extractServicePlans spWorkbook (fun _ => 1)).map (·.activities)) = [9]
    ∧ extractServicePlans spWorkbook (fun _ => 0)
        ≠ extractServicePlans spWorkbook (fun _ => 1) := by
  refine ⟨rfl, rfl, fun h => ?_⟩
  have h1 : ([8] : List ℤ) = [9] := by
    calc ([8] : List ℤ)
        = (extractServicePlans spWorkbook (fun _ => 0)).map (·.activities) := rfl
      _ = (extractServicePlans spWorkbook (fun _ => 1)).map (·.activities) := by rw [h]
      _ = [9] := rfl
  simp at h1

/-- C8 (amended): on the same workbook the job summary is identical across runs
regardless of the random draws, and the daily-operation sequence and equipment
mapping agree across runs on every field that is not an explicit random draw
(day index, date, equipment list, operation counts, tool key, tool type); the
randomly synthesised numeric fields may differ between runs. -/
theorem extraction_deterministic_modulo_draws (wb : Workbook) (r r2 : Rngs) :
    (processUploadedFile wb r).lookup "job_summary"
      = (processUploadedFile wb r2).lookup "job_summary"
    ∧ (extractServicePlans wb r.sp).map DailyRecord.stablePart
        = (extractServicePlans wb r2.sp).map DailyRecord.stablePart
    ∧ (extractEquipment wb r.ft).map (fun p => (p.1, p.2.tool_type))
        = (extractEquipment wb r2.ft).map (fun p => (p.1, p.2.tool_type)) := by
  refine ⟨rfl, ?_, ?_⟩
  · unfold extractServicePlans
    rw [List.map_filterMap, List.map_filterMap]
    refine List.filterMap_congr ?_
    intro sp hsp
    rcases hre : readExcel wb ("SP" ++ toString sp) with e | df <;>
      simp [DailyRecord.stablePart]
  · unfold extractEquipment
    rw [List.map_filterMap, List.map_filterMap]
    refine List.filterMap_congr ?_
    intro t ht
    rcases hre : readExcel wb ("FT" ++ toString t) with e | df <;> simp


/-! Claim C4: operational-frequency metrics. -/

/-- The fold underlying Python `max(..., key=f)` returns the first element
attaining the maximal key: the list splits with strictly smaller keys before it
and no larger key anywhere. -/
theorem foldl_max_first {α : Type} (f : α → ℤ) :
    ∀ (xs : List α) (x : α),
      ∃ m l₁ l₂,
        xs.foldl (fun acc y => if f acc < f y then y else acc) x = m
        ∧ x :: xs = l₁ ++ m :: l₂
        ∧ (∀ b ∈ l₁, f b < f m)
        ∧ (∀ b ∈ x :: xs, f b ≤ f m) := by
  intro xs
  induction xs with
  | nil =>
    intro x
    exact ⟨x, [], [], rfl, rfl, by simp, by simp⟩
  | cons y ys ih =>
    intro x
    by_cases hxy : f x < f y
    · obtain ⟨m, l₁, l₂, hm, hsplit, hlt, hle⟩ := ih y
      have hfold : (y :: ys).foldl (fun acc z => if f acc < f z then z else acc) x = m := by
        simpa [List.foldl_cons, if_pos hxy] using hm
      have hym : f y ≤ f m := hle y (List.mem_cons_self y ys)
      refine ⟨m, x :: l₁, l₂, hfold, ?_, ?_, ?_⟩
      · rw [List.cons_append, ← hsplit]
      · intro b hb
        rcases List.mem_cons.mp hb with hbx | hbl
        · subst hbx; exact lt_of_lt_of_le hxy hym
        · exact hlt b hbl
      · intro b hb
        rcases List.mem_cons.mp hb with hbx | hby
        · subst hbx; exact le_of_lt (lt_of_lt_of_le hxy hym)
        · exact hle b hby
    · obtain ⟨m, l₁, l₂, hm, hsplit, hlt, hle⟩ := ih x
      have hfold : (y :: ys).foldl (fun acc z => if f acc < f z then z else acc) x = m := by
        simpa [List.foldl_cons, if_neg hxy] using hm
      have hyx : f y ≤ f x := le_of_not_lt hxy
      have hxm : f x ≤ f m := hle x (List.mem_cons_self x ys)
      cases l₁ with
      | nil =>
        simp only [List.nil_append] at hsplit
        injection hsplit with h1 h2
        refine ⟨m, [], y :: l₂, hfold, ?_, by simp, ?_⟩
        · rw [List.nil_append, ← h1, ← h2]
        · intro b hb
          rcases List.mem_cons.mp hb with hbx | hby
          · subst hbx; exact hxm
          · rcases List.mem_cons.mp hby with hby2 | hbl
            · subst hby2; exact le_trans hyx hxm
            · exact hle b (List.mem_cons_of_mem x hbl)
      | cons a l₁2 =>
        rw [List.cons_append] at hsplit
        injection hsplit with h1 h2
        have hxl : f x < f m := by
          have := hlt a (List.mem_cons_self a l₁2)
          rwa [← h1] at this
        refine ⟨m, x :: y :: l₁2, l₂, hfold, ?_, ?_, ?_⟩
        · rw [List.cons_append, List.cons_append, ← h2]
        · intro b hb
          rcases List.mem_cons.mp hb with hbx | hb2
          · subst hbx; exact hxl
          · rcases List.mem_cons.mp hb2 with hby | hbl
            · subst hby; exact lt_of_le_of_lt hyx hxl
            · exact hlt b (List.mem_cons_of_mem a hbl)
        · intro b hb
          rcases List.mem_cons.mp hb with hbx | hb2
          · subst hbx; exact hxm
          · rcases List.mem_cons.mp hb2 with hby | hbys
            · subst hby; exact le_trans hyx hxm
            · exact hle b (List.mem_cons_of_mem x hbys)

/-- C4: on a non-empty record sequence the operational-frequency metrics report
total days = record count, total activities = sum of activity counts, average =
total / days rounded to 1 decimal, and peak activity day = the day index of the
first record attaining the maximal activity count; on the example records with
activities [10,13,15,12,11,9,8] and work hours [9.5,11.0,12.5,10.5,9.0,8.5,7.5]
this yields 78, 11.1 and day 3. -/
theorem operational_frequency_correct :
    (∀ ds : List DailyRecord, ds ≠ [] →
      ∃ o, analyzeOperationalFrequency ds = some o
        ∧ o.total_operational_days = ds.length
        ∧ o.total_activities = (ds.map (·.activities)).sum
        ∧ o.avg_activities_per_day
            = roundTo 1 (((ds.map (·.activities)).sum : ℚ) / ds.length)
        ∧ (∃ p l₁ l₂, ds = l₁ ++ p :: l₂ ∧ o.peak_activity_day = p.day
            ∧ (∀ b ∈ l₁, b.activities < p.activities)
            ∧ (∀ b ∈ ds, b.activities ≤ p.activities)))
    ∧ ((analyzeOperationalFrequency exampleDailyRecords).map
        (fun o => (o.total_activities, o.avg_activities_per_day, o.peak_activity_day)))
        = some (78, 111/10, 3) := by
  constructor
  · intro ds hds
    match ds, hds with
    | d :: rest, _ =>
      obtain ⟨m, l₁, l₂, hm, hsplit, hlt, hle⟩ :=
        foldl_max_first (fun x => x.activities) rest d
      refine ⟨_, rfl, rfl, rfl, ?_, m, l₁, l₂, hsplit, ?_, hlt, hle⟩
      · simp [Function.comp_def]
      · show ((pyMaxBy (fun x => x.activities) (d :: rest)).map (·.day)).getD 1 = m.day
        simp [pyMaxBy, hm]
  · norm_num [analyzeOperationalFrequency, exampleDailyRecords, roundTo, roundHalfEven,
      pyMaxBy]

/-- C4 witness: the general statement instantiated on the example records. -/
theorem operational_frequency_witness :
    exampleDailyRecords ≠ []
    ∧ ∃ o, analyzeOperationalFrequency exampleDailyRecords = some o
        ∧ o.total_operational_days = exampleDailyRecords.length := by
  obtain ⟨o, ho, h1, _⟩ :=
    operational_frequency_correct.1 exampleDailyRecords (by decide)
  exact ⟨by decide, o, ho, h1⟩


/-! Claim C5: equipment-frequency metrics. -/

/-- Spec-side definition for comparison (from the words of the spec, not the code):
the number of tools whose success rate falls in each named band — at least 95
excellent, at least 85 (and below 95) good, otherwise poor. -/
def specBucketCount (eqp : List (String × EquipRecord)) (b : String) : ℕ :=
  if b = "excellent" then (eqp.filter (fun t => decide (95 ≤ t.2.success_rate))).length
  else if b = "good" then
    (eqp.filter (fun t => decide (85 ≤ t.2.success_rate ∧ t.2.success_rate < 95))).length
  else (eqp.filter (fun t => decide (t.2.success_rate < 85))).length

/-- The bucket label computed by the code agrees with the excellent band of the spec. -/
theorem perfRating_beq_excellent (q : ℚ) :
    (perfRating q == "excellent") = decide (95 ≤ q) := by
  unfold perfRating
  by_cases h1 : 95 ≤ q
  · simp [h1]
  · by_cases h2 : 85 ≤ q <;> simp [h1, h2]

/-- The bucket label computed by the code agrees with the good band of the spec. -/
theorem perfRating_beq_good (q : ℚ) :
    (perfRating q == "good") = decide (85 ≤ q ∧ q < 95) := by
  unfold perfRating
  by_cases h1 : 95 ≤ q
  · have h3 : ¬ q < 95 := not_lt.mpr h1
    simp [h1, h3]
  · by_cases h2 : 85 ≤ q
    · have h3 : q < 95 := lt_of_not_ge h1
      simp [h1, h2, h3]
    · simp [h1, h2]

/-- The bucket label computed by the code agrees with the poor band of the spec. -/
theorem perfRating_beq_poor (q : ℚ) :
    (perfRating q == "poor") = decide (q < 85) := by
  unfold perfRating
  by_cases h1 : 95 ≤ q
  · have h3 : ¬ q < 85 := not_lt.mpr (le_trans (by norm_num) h1)
    simp [h1, h3]
  · by_cases h2 : 85 ≤ q
    · have h3 : ¬ q < 85 := not_lt.mpr h2
      simp [h1, h2, h3]
    · have h3 : q < 85 := lt_of_not_ge h2
      simp [h1, h2, h3]

/-- Contains on a list of strings is the decidability of a positive count. -/
theorem contains_eq_decide_count (l : List String) (b : String) :
    l.contains b = decide (0 < l.count b) := by
  by_cases h : b ∈ l
  · have h1 : l.contains b = true := List.elem_iff.mpr h
    have h2 : 0 < l.count b := List.count_pos_iff.mpr h
    simp [h1, h2, h]
  · have h1 : l.contains b = false := by
      cases hc : l.contains b
      · rfl
      · exact absurd (List.elem_iff.mp hc) h
    have h2 : l.count b = 0 := List.count_eq_zero.mpr h
    simp [h1, h2, h]

/-- The occurrence count of each bucket label among the per-tool ratings is the
band count of the spec. -/
theorem ratings_count_eq_specBucketCount (eqp : List (String × EquipRecord)) :
    ∀ b ∈ ["excellent", "good", "poor"],
      ((eqp.map (fun t => perfRating t.2.success_rate)).count b)
        = specBucketCount eqp b := by
  intro b hb
  rcases List.mem_cons.mp hb with h | hb2
  · subst h
    show (eqp.map (fun t => perfRating t.2.success_rate)).countP
      (fun x => x == "excellent") = _
    rw [List.countP_map]
    have hfun : ((fun x : String => x == "excellent")
          ∘ fun t : String × EquipRecord => perfRating t.2.success_rate)
        = fun t : String × EquipRecord => decide (95 ≤ t.2.success_rate) :=
      funext fun t => perfRating_beq_excellent _
    rw [hfun, List.countP_eq_length_filter]
    simp [specBucketCount]
  rcases List.mem_cons.mp hb2 with h | hb3
  · subst h
    show (eqp.map (fun t => perfRating t.2.success_rate)).countP
      (fun x => x == "good") = _
    rw [List.countP_map]
    have hfun : ((fun x : String => x == "good")
          ∘ fun t : String × EquipRecord => perfRating t.2.success_rate)
        = fun t : String × EquipRecord =>
            decide (85 ≤ t.2.success_rate ∧ t.2.success_rate < 95) :=
      funext fun t => perfRating_beq_good _
    rw [hfun, List.countP_eq_length_filter]
    simp [specBucketCount]
  rcases List.mem_cons.mp hb3 with h | hb4
  · subst h
    show (eqp.map (fun t => perfRating t.2.success_rate)).countP
      (fun x => x == "poor") = _
    rw [List.countP_map]
    have hfun : ((fun x : String => x == "poor")
          ∘ fun t : String × EquipRecord => perfRating t.2.success_rate)
        = fun t : String × EquipRecord => decide (t.2.success_rate < 85) :=
      funext fun t => perfRating_beq_poor _
    rw [hfun, List.countP_eq_length_filter]
    simp [specBucketCount]
  · simp at hb4

/-- C5: on a non-empty equipment mapping the equipment-frequency metrics count
issues as success rate strictly below 100, distribute tools into the excellent
(at least 95) / good (at least 85) / poor buckets, and report deployment success
rate = (tools − issues) / tools × 100 rounded to 2 decimals; on the demo
equipment (12 tools, 2 with rate below 100) this rate is 83.33. -/
theorem equipment_frequency_correct :
    (∀ eqp : List (String × EquipRecord), eqp ≠ [] →
      ∃ e, analyzeEquipmentFrequency eqp = some e
        ∧ e.total_tools_deployed = eqp.length
        ∧ e.tools_with_issues
            = (eqp.filter (fun t => decide (t.2.success_rate < 100))).length
        ∧ e.performance_distribution
            = (["excellent", "good", "poor"].filter
                (fun b => decide (0 < specBucketCount eqp b))).map
                (fun b => (b, specBucketCount eqp b))
        ∧ e.deployment_success_rate
            = roundTo 2 (((eqp.length : ℚ)
                - (eqp.filter (fun t => decide (t.2.success_rate < 100))).length)
                / eqp.length * 100))
    ∧ ((analyzeEquipmentFrequency demoEquipmentUsage).map
        (fun e => (e.total_tools_deployed, e.tools_with_issues,
          e.deployment_success_rate))) = some (12, 2, 8333/100) := by
  constructor
  · intro eqp h
    match eqp, h with
    | t :: rest, _ =>
      refine ⟨_, rfl, rfl, rfl, ?_, ?_⟩
      · show (["excellent", "good", "poor"].filter
            (fun b => ((t :: rest).map (fun u => perfRating u.2.success_rate)).contains b)).map
            (fun b => (b, ((t :: rest).map (fun u => perfRating u.2.success_rate)).count b)) = _
        rw [List.filter_congr (fun b hb => by
          rw [contains_eq_decide_count,
            ratings_count_eq_specBucketCount (t :: rest) b hb])]
        refine List.map_congr_left ?_
        intro b hb
        rw [ratings_count_eq_specBucketCount (t :: rest) b (List.mem_of_mem_filter hb)]
      · simp
  · norm_num [analyzeEquipmentFrequency, demoEquipmentUsage, roundTo, roundHalfEven]

/-- C5 witness: the general statement instantiated on the demo equipment. -/
theorem equipment_frequency_witness :
    demoEquipmentUsage ≠ []
    ∧ ∃ e, analyzeEquipmentFrequency demoEquipmentUsage = some e
        ∧ e.total_tools_deployed = demoEquipmentUsage.length := by
  obtain ⟨e, he, h1, _⟩ :=
    equipment_frequency_correct.1 demoEquipmentUsage (by decide)
  exact ⟨by decide, e, he, h1⟩


/-! Claim C6: empty inputs and zero-division guards. -/

/-- A one-day record whose work hours are zero (only downtime). -/
def zeroHoursRecord : DailyRecord :=
  { day := 1, date := "2025-06-11", activities := 0, work_hours := 0, downtime := 2,
    equipment := [], mill_operations := 0, ct_operations := 0 }

/-- C6 counterexample: with every input collection empty, the efficiency-metrics
function still returns a full mapping (job completion rate 100, safety score 98),
not the empty mapping the claim requires of each metrics function. -/
theorem efficiency_metrics_never_empty :
    effVal (calcEfficiencyMetrics Option.none [] [] []) ≠ Val.obj []
    ∧ (calcEfficiencyMetrics Option.none [] [] []).job_completion_rate = 100
    ∧ (calcEfficiencyMetrics Option.none [] [] []).safety_score = 98 := by
  refine ⟨?_, rfl, rfl⟩
  intro h
  simp [effVal] at h

/-- C6 (amended): the operational-frequency, equipment-frequency, time-pattern,
mill-performance and CT-performance functions return the empty mapping on an
empty input collection, and every guarded ratio yields 0 on a zero denominator
(zero work hours, zero duration days, no positive-hours day) rather than
raising; the efficiency-metrics function however always returns a full mapping
with its guarded entries 0, never an empty one. -/
theorem metrics_empty_inputs_and_guards :
    analyzeOperationalFrequency [] = Option.none
    ∧ analyzeEquipmentFrequency [] = Option.none
    ∧ analyzeTimePatterns [] = Option.none
    ∧ analyzeMillPerformance [] = Option.none
    ∧ analyzeCtPerformance [] = Option.none
    ∧ (∀ job eqp mill,
        (calcEfficiencyMetrics job [] eqp mill).activities_per_hour = 0
          ∧ (calcEfficiencyMetrics job [] eqp mill).job_completion_rate = 100)
    ∧ (∀ job ds eqp mill, ¬ 0 < (ds.map (·.work_hours)).sum →
        (calcEfficiencyMetrics job ds eqp mill).activities_per_hour = 0)
    ∧ (∀ ds eqp mill,
        (calcEfficiencyMetrics Option.none ds eqp mill).hours_per_day_avg = 0)
    ∧ (∀ ds : List DailyRecord, ds ≠ [] → (∀ d ∈ ds, ¬ 0 < d.work_hours) →
        ∃ t, analyzeTimePatterns ds = some t
          ∧ t.avg_daily_hours = 0 ∧ t.max_daily_hours = 0 ∧ t.min_daily_hours = 0
          ∧ t.downtime_percentage = 0) := by
  refine ⟨rfl, rfl, rfl, rfl, rfl, ?_, ?_, ?_, ?_⟩
  · intro job eqp mill
    exact ⟨by norm_num [calcEfficiencyMetrics], rfl⟩
  · intro job ds eqp mill h
    simp [calcEfficiencyMetrics, if_neg h]
  · intro ds eqp mill
    norm_num [calcEfficiencyMetrics]
  · intro ds hne hzero
    match ds, hne with
    | d :: rest, _ =>
      have hfe : ((d :: rest).map (fun x => x.work_hours)).filter
          (fun h => decide (0 < h)) = [] := by
        refine List.filter_eq_nil_iff.mpr ?_
        intro a ha
        obtain ⟨x, hx, rfl⟩ := List.mem_map.mp ha
        simpa using hzero x hx
      have hkey : analyzeTimePatterns (d :: rest) = some
          { avg_daily_hours := 0, max_daily_hours := 0, min_daily_hours := 0,
            total_downtime := roundTo 2 (((d :: rest).map (fun x => x.downtime)).sum),
            downtime_percentage := 0 } := by
        unfold analyzeTimePatterns
        rw [hfe]
        norm_num
      exact ⟨_, hkey, rfl, rfl, rfl, rfl⟩

/-- C6 witness: the guard statements instantiated at empty inputs and at a
single zero-hours day. -/
theorem metrics_guards_witness :
    (calcEfficiencyMetrics Option.none [] [] []).activities_per_hour = 0
    ∧ ∃ t, analyzeTimePatterns [zeroHoursRecord] = some t
        ∧ t.downtime_percentage = 0 := by
  refine ⟨(metrics_empty_inputs_and_guards.2.2.2.2.2.1 Option.none [] []).1, ?_⟩
  obtain ⟨t, ht, _, _, _, hdp⟩ :=
    metrics_empty_inputs_and_guards.2.2.2.2.2.2.2.2 [zeroHoursRecord]
      (by simp) (by intro d hd; rw [List.mem_singleton.mp hd]; norm_num [zeroHoursRecord])
  exact ⟨t, ht, hdp⟩


/-! Claim C7: recommendation rule order. -/

/-- C7: the recommendation rules fire in fixed order — a drill-time advisory
first (warning or positive), the maintenance advisory exactly when more than 0
tools are flagged (the separate non-empty-equipment guard in the source is
redundant), the efficiency-sharing advisory exactly when drilling efficiency
exceeds 80, and the safety advisory always present and always last. -/
theorem recommendations_rule_order (job : Option JobInfo) (ds : List DailyRecord)
    (eqp : List (String × EquipRecord)) (mill : List MillOp) :
    ∃ first, (first = drillWarnMsg ∨ first = drillGoodMsg)
      ∧ generateRecommendations job ds eqp mill =
          first :: ((if 0 < maintCount eqp then [maintMsg (maintCount eqp)] else [])
            ++ ((if 80 < (calcEfficiencyMetrics job ds eqp mill).drilling_efficiency
                then [shareMsg] else []) ++ [safetyMsg]))
      ∧ safetyMsg ∈ generateRecommendations job ds eqp mill
      ∧ (generateRecommendations job ds eqp mill).getLast? = some safetyMsg := by
  have hguard : (eqp ≠ [] ∧ 0 < maintCount eqp) ↔ 0 < maintCount eqp := by
    constructor
    · exact fun h => h.2
    · intro h
      refine ⟨fun he => ?_, h⟩
      rw [he] at h
      simp [maintCount] at h
  have heq : generateRecommendations job ds eqp mill
      = (if 45 < ((analyzeMillPerformance mill).map (·.avg_drill_time_mins)).getD 0
          then [drillWarnMsg] else [drillGoodMsg])
        ++ ((if 0 < maintCount eqp then [maintMsg (maintCount eqp)] else [])
          ++ ((if 80 < (calcEfficiencyMetrics job ds eqp mill).drilling_efficiency
              then [shareMsg] else []) ++ [safetyMsg])) := by
    unfold generateRecommendations
    simp only [hguard, List.append_assoc]
  have hmem : safetyMsg ∈ generateRecommendations job ds eqp mill := by
    rw [heq]; simp
  have hlast : (generateRecommendations job ds eqp mill).getLast? = some safetyMsg := by
    rw [heq,
      show ∀ A B C : List String, A ++ (B ++ (C ++ [safetyMsg]))
          = (A ++ B ++ C) ++ [safetyMsg] from fun A B C => by simp,
      List.getLast?_concat]
  by_cases hd : 45 < ((analyzeMillPerformance mill).map (·.avg_drill_time_mins)).getD 0
  · refine ⟨drillWarnMsg, Or.inl rfl, ?_, hmem, hlast⟩
    rw [heq, if_pos hd, List.singleton_append]
  · refine ⟨drillGoodMsg, Or.inr rfl, ?_, hmem, hlast⟩
    rw [heq, if_neg hd, List.singleton_append]


/-! Claims C1 and C2: the assembled analysis result. -/

/-- The key is present with a non-null value. -/
def hasKeyNonNull (v : Val) (k : String) : Prop :=
  ∃ w, v.lookup k = some w ∧ w.isNull = false

/-- The key is present and its value is a (possibly empty) mapping. -/
def hasKeyMapping (v : Val) (k : String) : Prop :=
  ∃ w, v.lookup k = some w ∧ w.isMapping = true

/-- Every assembled analysis has the ten top-level keys present and non-null,
and every derived metric group present at least as a (possibly empty) mapping. -/
theorem genFreqAnalysis_keys (j : JobInfo) (mill : List MillOp) (ct : List CtOp)
    (ds : List DailyRecord) (eqp : List (String × EquipRecord)) :
    hasKeyNonNull (genFreqAnalysis (some j) mill ct ds eqp) "job_summary"
    ∧ hasKeyNonNull (genFreqAnalysis (some j) mill ct ds eqp) "operational_frequency"
    ∧ hasKeyNonNull (genFreqAnalysis (some j) mill ct ds eqp) "equipment_frequency"
    ∧ hasKeyNonNull (genFreqAnalysis (some j) mill ct ds eqp) "time_analysis"
    ∧ hasKeyNonNull (genFreqAnalysis (some j) mill ct ds eqp) "efficiency_metrics"
    ∧ hasKeyNonNull (genFreqAnalysis (some j) mill ct ds eqp) "daily_breakdown"
    ∧ hasKeyNonNull (genFreqAnalysis (some j) mill ct ds eqp) "equipment_usage"
    ∧ hasKeyNonNull (genFreqAnalysis (some j) mill ct ds eqp) "mill_performance"
    ∧ hasKeyNonNull (genFreqAnalysis (some j) mill ct ds eqp) "ct_performance"
    ∧ hasKeyNonNull (genFreqAnalysis (some j) mill ct ds eqp) "recommendations"
    ∧ hasKeyMapping (genFreqAnalysis (some j) mill ct ds eqp) "operational_frequency"
    ∧ hasKeyMapping (genFreqAnalysis (some j) mill ct ds eqp) "equipment_frequency"
    ∧ hasKeyMapping (genFreqAnalysis (some j) mill ct ds eqp) "time_analysis"
    ∧ hasKeyMapping (genFreqAnalysis (some j) mill ct ds eqp) "efficiency_metrics"
    ∧ hasKeyMapping (genFreqAnalysis (some j) mill ct ds eqp) "mill_performance"
    ∧ hasKeyMapping (genFreqAnalysis (some j) mill ct ds eqp) "ct_performance" := by
  refine ⟨⟨_, rfl, rfl⟩,
    ⟨_, rfl, ?_⟩, ⟨_, rfl, ?_⟩, ⟨_, rfl, ?_⟩, ⟨_, rfl, rfl⟩,
    ⟨_, rfl, rfl⟩, ⟨_, rfl, rfl⟩, ⟨_, rfl, ?_⟩, ⟨_, rfl, ?_⟩, ⟨_, rfl, rfl⟩,
    ⟨_, rfl, ?_⟩, ⟨_, rfl, ?_⟩, ⟨_, rfl, ?_⟩, ⟨_, rfl, rfl⟩,
    ⟨_, rfl, ?_⟩, ⟨_, rfl, ?_⟩⟩
  · rcases h : analyzeOperationalFrequency ds with _ | o <;> rfl
  · rcases h : analyzeEquipmentFrequency eqp with _ | e <;> rfl
  · rcases h : analyzeTimePatterns ds with _ | t <;> rfl
  · rcases h : analyzeMillPerformance mill with _ | m <;> rfl
  · rcases h : analyzeCtPerformance ct with _ | c <;> rfl
  · rcases h : analyzeOperationalFrequency ds with _ | o <;> rfl
  · rcases h : analyzeEquipmentFrequency eqp with _ | e <;> rfl
  · rcases h : analyzeTimePatterns ds with _ | t <;> rfl
  · rcases h : analyzeMillPerformance mill with _ | m <;> rfl
  · rcases h : analyzeCtPerformance ct with _ | c <;> rfl

/-- C1: for every uploaded workbook — readable or not — and any random draws,
`process_uploaded_file` returns an analysis with all ten top-level keys present
and non-null, each derived metric group being present at least as a (possibly
empty) mapping. -/
theorem analysis_keys_always_present (wb : Workbook) (r : Rngs) :
    hasKeyNonNull (processUploadedFile wb r) "job_summary"
    ∧ hasKeyNonNull (processUploadedFile wb r) "operational_frequency"
    ∧ hasKeyNonNull (processUploadedFile wb r) "equipment_frequency"
    ∧ hasKeyNonNull (processUploadedFile wb r) "time_analysis"
    ∧ hasKeyNonNull (processUploadedFile wb r) "efficiency_metrics"
    ∧ hasKeyNonNull (processUploadedFile wb r) "daily_breakdown"
    ∧ hasKeyNonNull (processUploadedFile wb r) "equipment_usage"
    ∧ hasKeyNonNull (processUploadedFile wb r) "mill_performance"
    ∧ hasKeyNonNull (processUploadedFile wb r) "ct_performance"
    ∧ hasKeyNonNull (processUploadedFile wb r) "recommendations"
    ∧ hasKeyMapping (processUploadedFile wb r) "operational_frequency"
    ∧ hasKeyMapping (processUploadedFile wb r) "equipment_frequency"
    ∧ hasKeyMapping (processUploadedFile wb r) "time_analysis"
    ∧ hasKeyMapping (processUploadedFile wb r) "efficiency_metrics"
    ∧ hasKeyMapping (processUploadedFile wb r) "mill_performance"
    ∧ hasKeyMapping (processUploadedFile wb r) "ct_performance" := by
  have hres : processUploadedFile wb r
      = genFreqAnalysis (some (extractJobInfo wb)) (extractMillData wb r.mill)
          (extractCtData wb r.ct) (extractServicePlans wb r.sp)
          (extractEquipment wb r.ft) := rfl
  rw [hres]
  exact genFreqAnalysis_keys _ _ _ _ _

/-- C2: whenever an unhandled failure escapes the pipeline body, the
try/except of `process_uploaded_file` answers with the whole canned demo
dataset — all ten top-level keys present and non-null — never a partly
built or null result. -/
theorem failure_yields_complete_demo (body : Except PyErr Val) :
    (∃ e, body = .error e) →
      pyTryDemo body = demoDataVal
      ∧ hasKeyNonNull demoDataVal "job_summary"
      ∧ hasKeyNonNull demoDataVal "operational_frequency"
      ∧ hasKeyNonNull demoDataVal "equipment_frequency"
      ∧ hasKeyNonNull demoDataVal "time_analysis"
      ∧ hasKeyNonNull demoDataVal "efficiency_metrics"
      ∧ hasKeyNonNull demoDataVal "daily_breakdown"
      ∧ hasKeyNonNull demoDataVal "equipment_usage"
      ∧ hasKeyNonNull demoDataVal "mill_performance"
      ∧ hasKeyNonNull demoDataVal "ct_performance"
      ∧ hasKeyNonNull demoDataVal "recommendations" := by
  rintro ⟨e, rfl⟩
  exact ⟨rfl, ⟨_, rfl, rfl⟩, ⟨_, rfl, rfl⟩, ⟨_, rfl, rfl⟩, ⟨_, rfl, rfl⟩,
    ⟨_, rfl, rfl⟩, ⟨_, rfl, rfl⟩, ⟨_, rfl, rfl⟩, ⟨_, rfl, rfl⟩, ⟨_, rfl, rfl⟩,
    ⟨_, rfl, rfl⟩⟩

/-- C2 witness: the fallback evaluated on a concrete failing body. -/
theorem failure_fallback_witness :
    pyTryDemo (.error "workbook cannot be opened") = demoDataVal :=
  (failure_yields_complete_demo (.error "workbook cannot be opened") ⟨_, rfl⟩).1

end YJOS
